import Mathlib

/-!
Shallow embedding of the `github-cdn-worker` Cloudflare Worker.

The repository contains two near-identical variants of one worker script:
* `src/cdn-worker.js` — the fixed-owner variant: the repository owner comes
  from the `GITHUB_OWNER` environment variable and the inbound path is
  `/repo/branch/file...`; its handler is embedded below as `cdnFetch`.
* `src/unnamed/part_000` — the owner-in-path variant: the full inbound path
  is appended to the raw-content host; its handler is embedded as `uniFetch`.

The helper functions (`getToken`, `handleGitHubError`, `applyHeaders`,
`handleOptions`) are textually identical in the two variants and are embedded
once.  JavaScript `Headers` objects are modelled as association lists with
case-insensitive names (`hget` / `hset`), JavaScript string truthiness as
`truthy` on `Option String` (an absent binding is `none`, and both `none` and
the empty string are falsy).  The single outbound `fetch` call is modelled by
an oracle `upstream : OutboundRequest → Upstream`; the handlers return the
produced response together with the list of outbound requests they issued.
-/

namespace GithubCdn

/-- `config.githubDomain` from the source. -/
def githubDomain : String := "raw.githubusercontent.com"

/-- `config.corsOrigin` from the source. -/
def corsOrigin : String := "*"

/-- `config.defaultCacheTime` from the source (seconds, 1 day). -/
def defaultCacheTime : Nat := 86400

/-- JavaScript truthiness of an optional environment / header string:
`undefined` (here `none`) and the empty string are falsy. -/
def truthy : Option String → Bool
  | none => false
  | some s => s != ""

/-- Worker environment bindings (`env`). Each field is an optional string,
`none` modelling an unset variable. -/
structure Env where
  GITHUB_OWNER : Option String := none
  GITHUB_TOKEN : Option String := none
  ALLOW_QUERY_PARAM_TOKEN : Option String := none
  CACHE_TIME : Option String := none
  deriving DecidableEq, Repr

/-- ASCII lowercasing of a header name, written over the character list so
that it is kernel-computable; models the case-insensitivity of the
JavaScript `Headers` API. -/
def lower (s : String) : String := String.mk (s.data.map Char.toLower)

/-- `Headers.get`: case-insensitive lookup, `none` for an absent header
(JavaScript `null`). -/
def hget : List (String × String) → String → Option String
  | [], _ => none
  | p :: rest, name =>
    if lower p.1 = lower name then some p.2 else hget rest name

/-- `Headers.set`: overwrite every entry with the same (case-insensitive)
name, or append the pair when the name is absent. -/
def hset : List (String × String) → String → String → List (String × String)
  | [], name, value => [(name, value)]
  | p :: rest, name, value =>
    if lower p.1 = lower name then (name, value) :: hset rest name value
    else p :: hset rest name value

/-- An inbound request: method, URL path, URL origin, headers, and the
`token` query parameter (`none` when `url.searchParams.has` is false,
`some v` — possibly `some ""` — when it is present with value `v`). -/
structure RequestM where
  method : String
  pathname : String
  origin : String := ""
  headers : List (String × String) := []
  tokenParam : Option String := none
  deriving DecidableEq, Repr

/-- An upstream (GitHub) response: status, status text, body content and
headers. -/
structure Upstream where
  status : Nat
  statusText : String := ""
  body : String := ""
  headers : List (String × String) := []
  deriving DecidableEq, Repr

/-- A response produced by the worker.  `body = none` models a `null` body. -/
structure ResponseM where
  status : Nat := 200
  statusText : String := ""
  body : Option String := none
  headers : List (String × String) := []
  deriving DecidableEq, Repr

/-- The single outbound request issued to GitHub.  The source calls
`fetch(githubUrl, { headers })` without a `method` entry, so the method is
always the `fetch` default `GET`. -/
structure OutboundRequest where
  method : String
  url : String
  headers : List (String × String)
  deriving DecidableEq, Repr

/-- `pathname.replace(/^\\/+/, "")`: strip the leading run of slashes,
written over the character list so that it is kernel-computable. -/
def stripLeadingSlashes (s : String) : String :=
  String.mk (s.data.dropWhile (fun c => c == '/'))

/-- Helper for `splitSlash`: JavaScript `split` over a character list,
accumulating the current segment in reverse. -/
def splitSlashAux : List Char → List Char → List String
  | [], acc => [String.mk acc.reverse]
  | c :: rest, acc =>
    if c == '/' then String.mk acc.reverse :: splitSlashAux rest []
    else splitSlashAux rest (c :: acc)

/-- JavaScript `s.split("/")` (empty segments included; the empty string
splits to `[""]`). -/
def splitSlash (s : String) : List String := splitSlashAux s.data []

/-- JavaScript `parts.join("/")`. -/
def joinSlash : List String → String
  | [] => ""
  | [s] => s
  | s :: rest => s ++ "/" ++ joinSlash rest

/-- JavaScript `Response.ok`: status in the range 200–299. -/
def respOk (status : Nat) : Bool := 200 ≤ status && status ≤ 299

/-- `getToken(request, env)` — token priority: (1) `X-GitHub-Token` header if
truthy; (2) `token` query parameter if `ALLOW_QUERY_PARAM_TOKEN` is the exact string true
and the parameter is present (its value is returned even when empty);
(3) `env.GITHUB_TOKEN` if truthy; otherwise `null`. -/
def getToken (request : RequestM) (env : Env) : Option String :=
  let headerToken := hget request.headers "X-GitHub-Token"
  if truthy headerToken then headerToken
  else if env.ALLOW_QUERY_PARAM_TOKEN == some "true" && request.tokenParam.isSome then
    request.tokenParam
  else if truthy env.GITHUB_TOKEN then env.GITHUB_TOKEN
  else none

/-- The outbound header object built at the `fetch` call:
`token` truthy gives one Authorization entry, else no headers (a falsy — absent or
empty — token yields no headers). -/
def authHeaders : Option String → List (String × String)
  | some t => if t != "" then [("Authorization", "token " ++ t)] else []
  | none => []

/-- `handleGitHubError(response)` — maps a non-OK upstream response to a
user-facing response; the upstream body is never read. -/
def handleGitHubError (response : Upstream) : ResponseM :=
  if response.status = 404 then
    { status := 404,
      body := some "File not found. Check repository, branch, and file path." }
  else if response.status = 401 ∨ response.status = 403 then
    { status := 403,
      body := some "Access denied. Your token may be invalid or lack permissions." }
  else
    { status := response.status,
      body := some ("GitHub API error: " ++ toString response.status ++ " "
        ++ response.statusText) }

/-- `env.CACHE_TIME || config.defaultCacheTime`, rendered into the
`max-age` template. -/
def cacheTimeValue (env : Env) : String :=
  if truthy env.CACHE_TIME then env.CACHE_TIME.getD "" else toString defaultCacheTime

/-- `applyHeaders(headers, env)` — the seven `headers.set` calls, in source
order. -/
def applyHeaders (headers : List (String × String)) (env : Env) : List (String × String) :=
  hset (hset (hset (hset (hset (hset (hset headers
    "Cache-Control" ("public, max-age=" ++ cacheTimeValue env))
    "Access-Control-Allow-Origin" corsOrigin)
    "Access-Control-Allow-Methods" "GET, HEAD, OPTIONS")
    "Access-Control-Max-Age" "86400")
    "X-Content-Type-Options" "nosniff")
    "X-Frame-Options" "DENY")
    "Referrer-Policy" "strict-origin-when-cross-origin"

/-- `handleOptions(request)` — preflight response: `applyHeaders` on a fresh
header set with an empty environment object, then
`Access-Control-Allow-Headers` from the request (falling back to the fixed
default when the request header is absent or empty), wrapped in
`new Response(null, { headers })` (status 200, null body). -/
def handleOptions (request : RequestM) : ResponseM :=
  let headers := applyHeaders [] {}
  let requested := hget request.headers "Access-Control-Request-Headers"
  let headers := hset headers "Access-Control-Allow-Headers"
    (if truthy requested then requested.getD "" else "X-GitHub-Token, Content-Type")
  { status := 200, body := none, headers := headers }

/-- The HTML template literal of `generateLandingPage` in `src/cdn-worker.js`
(fixed-owner variant), with `${url.origin}` substituted. -/
def landingPageHtml (origin : String) : String :=
  "<!DOCTYPE html>\n" ++
  "    <html lang=\"zh-CN\">\n" ++
  "      <head>\n" ++
  "        <meta charset=\"UTF-8\">\n" ++
  "        <meta name=\"viewport\" content=\"width=device-width, initial-scale=1.0\">\n" ++
  "        <title>Universal GitHub CDN</title>\n" ++
  "        <style>\n" ++
  "          body \x7b font-family: -apple-system, BlinkMacSystemFont, \"Segoe UI\", Roboto, Helvetica, Arial, sans-serif; max-width: 800px; margin: 2rem auto; padding: 0 1rem; line-height: 1.6; color: #333; \x7d\n" ++
  "          h1 \x7b color: #0070f3; border-bottom: 2px solid #f0f0f0; padding-bottom: 0.5rem; \x7d\n" ++
  "          code \x7b background: #f1f1f1; padding: 0.2em 0.4em; border-radius: 4px; font-size: 0.9em; \x7d\n" ++
  "          .note \x7b background: #fffbe6; padding: 1em; border-left: 4px solid #ffd600; margin: 2rem 0; border-radius: 4px; \x7d\n" ++
  "          .note p \x7b margin: 0; \x7d\n" ++
  "          li \x7b margin-bottom: 0.5rem; \x7d\n" ++
  "        </style>\n" ++
  "      </head>\n" ++
  "      <body>\n" ++
  "        <h1>🚀 Universal GitHub CDN</h1>\n" ++
  "        <p>This is a high-performance CDN proxy for GitHub raw content, supporting both public and private repositories.</p>\n" ++
  "        <p><strong>使用格式：</strong></p>\n" ++
  "        <code>" ++ origin ++ "/&lt;repo&gt;/&lt;branch&gt;/&lt;path-to-file&gt;</code>\n" ++
  "        <div class=\"note\">\n" ++
  "          <h3>仓库 owner 已隐藏</h3>\n" ++
  "          <p>owner（仓库拥有者）由 Worker 环境变量 <code>GITHUB_OWNER</code> 决定，用户无需在链接中填写 owner。</p>\n" ++
  "        </div>\n" ++
  "        <div class=\"note\">\n" ++
  "          <h3>访问私有仓库</h3>\n" ++
  "          <p>如需访问私有仓库，必须通过以下方式之一提供 GitHub Token（推荐顺序）：</p>\n" ++
  "          <ol>\n" ++
  "            <li><strong>HTTP Header（推荐）:</strong> 在请求中添加 <code>X-GitHub-Token</code> 头。</li>\n" ++
  "            <li><strong>Worker 环境变量:</strong> 在 Worker 设置中配置 <code>GITHUB_TOKEN</code>。</li>\n" ++
  "            <li><strong>URL 参数（谨慎使用）:</strong> 在链接后添加 <code>?token=YOUR_TOKEN</code>，需在 Worker 设置中将 <code>ALLOW_QUERY_PARAM_TOKEN</code> 设为 <code>\"true\"</code>。</li>\n" ++
  "          </ol>\n" ++
  "        </div>\n" ++
  "      </body>\n" ++
  "    </html>"

/-- `generateLandingPage({ origin })` in `src/cdn-worker.js`: a 200 HTML
response whose explicit headers are only `Content-Type` and
`Cache-Control`. -/
def generateLandingPage (origin : String) : ResponseM :=
  { status := 200,
    body := some (landingPageHtml origin),
    headers := [("Content-Type", "text/html;charset=UTF-8"),
                ("Cache-Control", "public, max-age=" ++ toString defaultCacheTime)] }

/-- The HTML template literal of `generateLandingPage` in
`src/unnamed/part_000` (owner-in-path variant), with `${url.origin}`
substituted. -/
def landingPageHtmlUni (origin : String) : String :=
  "<!DOCTYPE html>\n" ++
  "    <html lang=\"zh-CN\">\n" ++
  "      <head>\n" ++
  "        <meta charset=\"UTF-8\">\n" ++
  "        <meta name=\"viewport\" content=\"width=device-width, initial-scale=1.0\">\n" ++
  "        <title>Universal GitHub CDN</title>\n" ++
  "        <style>\n" ++
  "          body \x7b font-family: -apple-system, BlinkMacSystemFont, \"Segoe UI\", Roboto, Helvetica, Arial, sans-serif; max-width: 800px; margin: 2rem auto; padding: 0 1rem; line-height: 1.6; color: #333; \x7d\n" ++
  "          h1 \x7b color: #0070f3; border-bottom: 2px solid #f0f0f0; padding-bottom: 0.5rem; \x7d\n" ++
  "          code \x7b background: #f1f1f1; padding: 0.2em 0.4em; border-radius: 4px; font-size: 0.9em; \x7d\n" ++
  "          .note \x7b background: #fffbe6; padding: 1em; border-left: 4px solid #ffd600; margin: 2rem 0; border-radius: 4px; \x7d\n" ++
  "          .note p \x7b margin: 0; \x7d\n" ++
  "          li \x7b margin-bottom: 0.5rem; \x7d\n" ++
  "        </style>\n" ++
  "      </head>\n" ++
  "      <body>\n" ++
  "        <h1>🚀 Universal GitHub CDN</h1>\n" ++
  "        <p>This is a high-performance CDN proxy for GitHub raw content, supporting both public and private repositories.</p>\n" ++
  "        <p><strong>Usage Format:</strong></p>\n" ++
  "        <code>" ++ origin ++ "/&lt;owner&gt;/&lt;repo&gt;/&lt;branch&gt;/&lt;path-to-file&gt;</code>\n" ++
  "        \n" ++
  "        <div class=\"note\">\n" ++
  "          <h3>Accessing Private Repositories</h3>\n" ++
  "          <p>To access private repositories, you must provide a GitHub Token in one of the following ways (in order of recommendation):</p>\n" ++
  "          <ol>\n" ++
  "            <li><strong>HTTP Header (Recommended):</strong> Add an <code>X-GitHub-Token</code> header to your request.</li>\n" ++
  "            <li><strong>Worker Environment Variable:</strong> Set a <code>GITHUB_TOKEN</code> secret in the Worker\u0027s settings.</li>\n" ++
  "            <li><strong>URL Parameter (Use with caution):</strong> Append <code>?token=YOUR_TOKEN</code>. This requires setting the <code>ALLOW_QUERY_PARAM_TOKEN</code> environment variable to <code>\"true\"</code> in the Worker\u0027s settings.</li>\n" ++
  "          </ol>\n" ++
  "        </div>\n" ++
  "      </body>\n" ++
  "    </html>"

/-- `generateLandingPage(url)` in `src/unnamed/part_000`. -/
def generateLandingPageUni (origin : String) : ResponseM :=
  { status := 200,
    body := some (landingPageHtmlUni origin),
    headers := [("Content-Type", "text/html;charset=UTF-8"),
                ("Cache-Control", "public, max-age=" ++ toString defaultCacheTime)] }

/-- The main `fetch` handler of `src/cdn-worker.js` (fixed-owner variant).
The outbound network call is abstracted by the oracle `upstream`; the result
pairs the produced response with the list of outbound requests issued.  The
source passes no `method` to `fetch`, so the outbound method is the `fetch`
default `GET`. -/
def cdnFetch (request : RequestM) (env : Env)
    (upstream : OutboundRequest → Upstream) : ResponseM × List OutboundRequest :=
  if request.method = "OPTIONS" then (handleOptions request, [])
  else if request.pathname = "/" ∨ request.pathname = "" then
    (generateLandingPage request.origin, [])
  else
    let token := getToken request env
    if ¬ truthy env.GITHUB_OWNER then
      ({ status := 500, body := some "GITHUB_OWNER environment variable not set." }, [])
    else
      let owner := env.GITHUB_OWNER.getD ""
      let parts := splitSlash (stripLeadingSlashes request.pathname)
      if parts.length < 3 then
        ({ status := 400, body := some "Invalid path. Format: /repo/branch/path-to-file" }, [])
      else
        let repo := parts.headD ""
        let branch := (parts.drop 1).headD ""
        let fileParts := parts.drop 2
        let githubUrl := "https://" ++ githubDomain ++ "/" ++ owner ++ "/" ++ repo
          ++ "/" ++ branch ++ "/" ++ joinSlash fileParts
        let outbound : OutboundRequest :=
          { method := "GET", url := githubUrl, headers := authHeaders token }
        let githubResponse := upstream outbound
        if ¬ respOk githubResponse.status then
          (handleGitHubError githubResponse, [outbound])
        else
          ({ status := githubResponse.status, statusText := githubResponse.statusText,
             body := some githubResponse.body,
             headers := applyHeaders githubResponse.headers env }, [outbound])

/-- The main `fetch` handler of `src/unnamed/part_000` (owner-in-path
variant): the upstream URL is the raw-content host with the full inbound
pathname appended verbatim. -/
def uniFetch (request : RequestM) (env : Env)
    (upstream : OutboundRequest → Upstream) : ResponseM × List OutboundRequest :=
  if request.method = "OPTIONS" then (handleOptions request, [])
  else if request.pathname = "/" ∨ request.pathname = "" then
    (generateLandingPageUni request.origin, [])
  else
    let token := getToken request env
    let githubUrl := "https://" ++ githubDomain ++ request.pathname
    let outbound : OutboundRequest :=
      { method := "GET", url := githubUrl, headers := authHeaders token }
    let githubResponse := upstream outbound
    if ¬ respOk githubResponse.status then
      (handleGitHubError githubResponse, [outbound])
    else
      ({ status := githubResponse.status, statusText := githubResponse.statusText,
         body := some githubResponse.body,
         headers := applyHeaders githubResponse.headers env }, [outbound])

/-! ### General lemmas about the header model and the handlers -/

/-- Reading a header after `hset`: the set name reads back the new value,
any other name is untouched. -/
theorem hget_hset (hs : List (String × String)) (n v m : String) :
    hget (hset hs n v) m =
      if lower m = lower n then some v else hget hs m := by
  induction hs with
  | nil =>
    by_cases h : lower m = lower n
    · simp only [hset, hget, if_pos h, if_pos h.symm]
    · have h' : ¬ lower n = lower m := fun hc => h hc.symm
      simp only [hset, hget, if_neg h, if_neg h']
  | cons p rest ih =>
    by_cases hp : lower p.1 = lower n
    · by_cases h : lower m = lower n
      · simp only [hset, if_pos hp, hget, if_pos h, if_pos h.symm]
      · have h' : ¬ lower n = lower m := fun hc => h hc.symm
        have hpm : ¬ lower p.1 = lower m := fun hc => h (hc.symm.trans hp)
        simp only [hset, if_pos hp, hget, if_neg h', ih, if_neg h, if_neg hpm]
    · by_cases h : lower m = lower n
      · have hpm : ¬ lower p.1 = lower m := fun hc => hp (hc.trans h)
        simp only [hset, if_neg hp, hget, if_neg hpm, ih, if_pos h]
      · by_cases hpm : lower p.1 = lower m
        · simp only [hset, if_neg hp, hget, if_pos hpm, if_neg h]
        · simp only [hset, if_neg hp, hget, if_neg hpm, ih, if_neg h]

/-- Reading any header out of the rewritten set: the seven managed names
read back their fixed values, every other name reads from the input set. -/
theorem hget_applyHeaders (hs : List (String × String)) (env : Env) (name : String) :
    hget (applyHeaders hs env) name =
      if lower name = "referrer-policy" then some "strict-origin-when-cross-origin"
      else if lower name = "x-frame-options" then some "DENY"
      else if lower name = "x-content-type-options" then some "nosniff"
      else if lower name = "access-control-max-age" then some "86400"
      else if lower name = "access-control-allow-methods" then some "GET, HEAD, OPTIONS"
      else if lower name = "access-control-allow-origin" then some corsOrigin
      else if lower name = "cache-control" then
        some ("public, max-age=" ++ cacheTimeValue env)
      else hget hs name := by
  simp only [applyHeaders, hget_hset,
    show lower "Referrer-Policy" = "referrer-policy" by decide,
    show lower "X-Frame-Options" = "x-frame-options" by decide,
    show lower "X-Content-Type-Options" = "x-content-type-options" by decide,
    show lower "Access-Control-Max-Age" = "access-control-max-age" by decide,
    show lower "Access-Control-Allow-Methods" = "access-control-allow-methods" by decide,
    show lower "Access-Control-Allow-Origin" = "access-control-allow-origin" by decide,
    show lower "Cache-Control" = "cache-control" by decide]

/-- The `Authorization` header of the outbound header object: present with
value `token <t>` exactly when the resolved token is truthy. -/
theorem hget_authHeaders (t : Option String) :
    hget (authHeaders t) "Authorization" =
      if truthy t then some ("token " ++ t.getD "") else none := by
  match t with
  | none => simp [authHeaders, truthy, hget]
  | some s =>
    by_cases h : s = ""
    · simp [authHeaders, truthy, hget, h]
    · simp [authHeaders, truthy, hget, h]

/-- Every outbound request `cdnFetch` issues uses method `GET` and the
header object built from the resolved token. -/
theorem cdnFetch_outbound_mem (request : RequestM) (env : Env)
    (u : OutboundRequest → Upstream) :
    ∀ ob ∈ (cdnFetch request env u).2,
      ob.method = "GET" ∧ ob.headers = authHeaders (getToken request env) := by
  intro ob hob
  simp only [cdnFetch] at hob
  split at hob
  · simp at hob
  · split at hob
    · simp at hob
    · split at hob
      · simp at hob
      · split at hob
        · simp at hob
        · split at hob <;> (simp at hob; subst hob; exact ⟨rfl, rfl⟩)

/-- Every outbound request `uniFetch` issues uses method `GET`, the
raw-content URL built from the inbound pathname, and the header object built
from the resolved token. -/
theorem uniFetch_outbound_mem (request : RequestM) (env : Env)
    (u : OutboundRequest → Upstream) :
    ∀ ob ∈ (uniFetch request env u).2,
      ob.method = "GET" ∧ ob.url = "https://" ++ githubDomain ++ request.pathname ∧
        ob.headers = authHeaders (getToken request env) := by
  intro ob hob
  simp only [uniFetch] at hob
  split at hob
  · simp at hob
  · split at hob
    · simp at hob
    · split at hob <;> (simp at hob; subst hob; exact ⟨rfl, rfl, rfl⟩)

/-! ### Claims -/

/-- C1: for every request whose `X-GitHub-Token` header is present and
non-empty with value `T`, the resolved token is `T`, and every outbound
upstream request issued by the handler carries `Authorization: token T` —
regardless of the `token` query parameter, the `ALLOW_QUERY_PARAM_TOKEN`
flag, or a configured `GITHUB_TOKEN`. -/
theorem c1_header_token_priority (request : RequestM) (env : Env)
    (upstream : OutboundRequest → Upstream) (T : String)
    (hT : hget request.headers "X-GitHub-Token" = some T) (hne : T ≠ "") :
    getToken request env = some T ∧
    ∀ ob ∈ (cdnFetch request env upstream).2,
      hget ob.headers "Authorization" = some ("token " ++ T) := by
  have htok : getToken request env = some T := by
    simp [getToken, hT, truthy, hne]
  refine ⟨htok, fun ob hob => ?_⟩
  have h := (cdnFetch_outbound_mem request env upstream ob hob).2
  rw [h, htok, hget_authHeaders]
  simp [truthy, hne]

/-- Witness for C1 at a concrete request and environment. -/
theorem c1_witness :
    getToken
        { method := "GET", pathname := "/r/b/f",
          headers := [("X-GitHub-Token", "tok")], tokenParam := some "q" }
        { GITHUB_OWNER := some "own", GITHUB_TOKEN := some "envtok",
          ALLOW_QUERY_PARAM_TOKEN := some "true" } = some "tok" ∧
    hget ((cdnFetch
        { method := "GET", pathname := "/r/b/f",
          headers := [("X-GitHub-Token", "tok")], tokenParam := some "q" }
        { GITHUB_OWNER := some "own", GITHUB_TOKEN := some "envtok",
          ALLOW_QUERY_PARAM_TOKEN := some "true" }
        (fun _ => { status := 200 })).2.headD
          { method := "", url := "", headers := [] }).headers "Authorization" =
      some ("token " ++ "tok") := by
  have h := c1_header_token_priority
    { method := "GET", pathname := "/r/b/f",
      headers := [("X-GitHub-Token", "tok")], tokenParam := some "q" }
    { GITHUB_OWNER := some "own", GITHUB_TOKEN := some "envtok",
      ALLOW_QUERY_PARAM_TOKEN := some "true" }
    (fun _ => { status := 200 }) "tok" (by decide) (by decide)
  exact ⟨h.1, h.2 _ (by decide)⟩

/-- C2 counterexample: a request with no `X-GitHub-Token` header,
`ALLOW_QUERY_PARAM_TOKEN` unset and `?token=qtok` present, but with
`GITHUB_TOKEN` configured: the single outbound request does carry an
`Authorization` header (built from the configured token), contradicting the
claim that it carries none. -/
theorem c2_counterexample :
    ((cdnFetch { method := "GET", pathname := "/r/b/f", tokenParam := some "qtok" }
        { GITHUB_OWNER := some "own", GITHUB_TOKEN := some "secret" }
        (fun _ => { status := 200 })).2.map
      (fun ob => hget ob.headers "Authorization")) = [some "token secret"] := by
  decide

/-- C2 amended: with no header token, `ALLOW_QUERY_PARAM_TOKEN` not equal to
the string true, `?token=` present, and additionally `GITHUB_TOKEN` unset or
empty, the resolved token is null and no outbound request carries an
`Authorization` header. -/
theorem c2_amended_no_auth (request : RequestM) (env : Env)
    (upstream : OutboundRequest → Upstream)
    (hh : truthy (hget request.headers "X-GitHub-Token") = false)
    (hq : env.ALLOW_QUERY_PARAM_TOKEN ≠ some "true")
    (ht : request.tokenParam.isSome = true)
    (hg : truthy env.GITHUB_TOKEN = false) :
    getToken request env = none ∧
    ∀ ob ∈ (cdnFetch request env upstream).2,
      hget ob.headers "Authorization" = none := by
  have htok : getToken request env = none := by
    simp [getToken, hh, hq, hg]
  refine ⟨htok, fun ob hob => ?_⟩
  have h := (cdnFetch_outbound_mem request env upstream ob hob).2
  rw [h, htok, hget_authHeaders]
  simp [truthy]

/-- Witness for C2 (amended) at a concrete request and environment. -/
theorem c2_witness :
    getToken { method := "GET", pathname := "/r/b/f", tokenParam := some "qtok" }
        { GITHUB_OWNER := some "own" } = none ∧
    hget ((cdnFetch { method := "GET", pathname := "/r/b/f", tokenParam := some "qtok" }
        { GITHUB_OWNER := some "own" } (fun _ => { status := 200 })).2.headD
          { method := "", url := "", headers := [] }).headers "Authorization" = none := by
  have h := c2_amended_no_auth
    { method := "GET", pathname := "/r/b/f", tokenParam := some "qtok" }
    { GITHUB_OWNER := some "own" } (fun _ => { status := 200 })
    (by decide) (by decide) (by decide) (by decide)
  exact ⟨h.1, h.2 _ (by decide)⟩

/-- C3: the error mapper on non-OK upstream responses: status 404 maps to
status 404 with the fixed not-found body; 401 and 403 map to status 403 with
the fixed access-denied body; any other status is preserved with a body
embedding the literal status code and status text.  In every case the result
is independent of the upstream body (it is a fixed or status-derived
string). -/
theorem c3_error_mapping (r : Upstream) (hnok : respOk r.status = false) :
    (r.status = 404 → handleGitHubError r =
      { status := 404,
        body := some "File not found. Check repository, branch, and file path." }) ∧
    (r.status = 401 ∨ r.status = 403 → handleGitHubError r =
      { status := 403,
        body := some "Access denied. Your token may be invalid or lack permissions." }) ∧
    (r.status ≠ 404 → r.status ≠ 401 → r.status ≠ 403 → handleGitHubError r =
      { status := r.status,
        body := some ("GitHub API error: " ++ toString r.status ++ " " ++ r.statusText) }) := by
  refine ⟨fun h => ?_, fun h => ?_, fun h1 h2 h3 => ?_⟩
  · simp [handleGitHubError, h]
  · rcases h with h | h <;> simp [handleGitHubError, h]
  · simp [handleGitHubError, h1, h2, h3]

/-- Witness for C3: the mapper evaluated at a concrete 500 upstream
response. -/
theorem c3_witness :
    handleGitHubError { status := 500, statusText := "Internal Server Error" } =
      { status := 500, body := some "GitHub API error: 500 Internal Server Error" } :=
  (c3_error_mapping { status := 500, statusText := "Internal Server Error" }
      (by decide)).2.2 (by decide) (by decide) (by decide)

/-- C4 counterexample: an upstream 301 — a 3xx status — is not `ok` and is
routed through the error mapper: the body is replaced (the upstream body is
discarded) and no header rewrite is applied, contradicting the claim that
2xx and 3xx statuses both pass through. -/
theorem c4_counterexample :
    (uniFetch { method := "GET", pathname := "/o/r/b/f" } {}
        (fun _ => { status := 301, statusText := "Moved Permanently",
                    body := "redirect body" })).1 =
      { status := 301, body := some "GitHub API error: 301 Moved Permanently" } ∧
    (uniFetch { method := "GET", pathname := "/o/r/b/f" } {}
        (fun _ => { status := 301, statusText := "Moved Permanently",
                    body := "redirect body" })).1.body ≠ some "redirect body" := by
  decide

/-- C4 amended: only 2xx upstream statuses (JavaScript `response.ok`) pass
through — the handler returns the upstream status and body unchanged with
the header rewrite applied; 3xx statuses instead go to the error mapper.
Stated for both handler variants (the second under the fixed-owner variant
side conditions). -/
theorem c4_ok_passthrough (request : RequestM) (env : Env) (up : Upstream)
    (hm : request.method ≠ "OPTIONS")
    (h1 : request.pathname ≠ "/") (h2 : request.pathname ≠ "")
    (hok : respOk up.status = true) :
    (uniFetch request env (fun _ => up)).1 =
      { status := up.status, statusText := up.statusText, body := some up.body,
        headers := applyHeaders up.headers env } ∧
    (truthy env.GITHUB_OWNER = true →
      ¬ (splitSlash (stripLeadingSlashes request.pathname)).length < 3 →
      (cdnFetch request env (fun _ => up)).1 =
        { status := up.status, statusText := up.statusText, body := some up.body,
          headers := applyHeaders up.headers env }) := by
  constructor
  · simp [uniFetch, hm, h1, h2, hok]
  · intro howner hparts
    simp [cdnFetch, hm, h1, h2, hok, howner, hparts]

/-- Witness for C4 (amended): a concrete 200 upstream response passes
through with rewritten headers. -/
theorem c4_witness :
    (uniFetch { method := "GET", pathname := "/o/r/b/f" } { GITHUB_OWNER := some "own" }
        (fun _ => { status := 200, statusText := "OK", body := "content",
                    headers := [("Content-Type", "text/plain")] })).1 =
      { status := 200, statusText := "OK", body := some "content",
        headers := applyHeaders [("Content-Type", "text/plain")]
          { GITHUB_OWNER := some "own" } } :=
  (c4_ok_passthrough _ _ _ (by decide) (by decide) (by decide) (by decide)).1

/-- C5 counterexample: for an inbound HEAD request the single outbound
request uses method GET — the source never passes the inbound method to
`fetch` — and, with the query-token source enabled and `?token=` empty, a
token is resolved (the empty string) yet no `Authorization` header is
attached; this refutes both the method-mirroring part and the
attached-iff-resolved part of the claim. -/
theorem c5_counterexample :
    ((uniFetch { method := "HEAD", pathname := "/o/r/b/f", tokenParam := some "" }
        { ALLOW_QUERY_PARAM_TOKEN := some "true" } (fun _ => { status := 200 })).2.map
      (fun ob => (ob.method, hget ob.headers "Authorization"))) = [("GET", none)] ∧
    getToken { method := "HEAD", pathname := "/o/r/b/f", tokenParam := some "" }
      { ALLOW_QUERY_PARAM_TOKEN := some "true" } = some "" := by
  decide

/-- C5 amended: every content-path request issues exactly one outbound
request, to the resolved upstream URL, always with method GET regardless of
the inbound method, and the `Authorization: token <value>` header is
attached iff the resolved token is truthy (present and non-empty). -/
theorem c5_single_outbound (request : RequestM) (env : Env)
    (u : OutboundRequest → Upstream)
    (hm : request.method ≠ "OPTIONS")
    (h1 : request.pathname ≠ "/") (h2 : request.pathname ≠ "") :
    (uniFetch request env u).2.length = 1 ∧
    ∀ ob ∈ (uniFetch request env u).2,
      ob.method = "GET" ∧
      ob.url = "https://" ++ githubDomain ++ request.pathname ∧
      (hget ob.headers "Authorization").isSome = truthy (getToken request env) ∧
      (truthy (getToken request env) = true →
        hget ob.headers "Authorization" =
          some ("token " ++ (getToken request env).getD "")) := by
  constructor
  · have hroot : ¬ (request.pathname = "/" ∨ request.pathname = "") :=
      fun hc => hc.elim h1 h2
    simp only [uniFetch]
    rw [if_neg hm, if_neg hroot]
    split <;> rfl
  · intro ob hob
    obtain ⟨hmeth, hurl, hhdrs⟩ := uniFetch_outbound_mem request env u ob hob
    refine ⟨hmeth, hurl, ?_, ?_⟩
    · rw [hhdrs, hget_authHeaders]
      cases htr : truthy (getToken request env) <;> simp [htr]
    · intro htr
      rw [hhdrs, hget_authHeaders, if_pos htr]

/-- Witness for C5 (amended): a concrete content-path request issues exactly
one outbound request. -/
theorem c5_witness :
    (uniFetch { method := "GET", pathname := "/o/r/b/f" } { GITHUB_TOKEN := some "tk" }
        (fun _ => { status := 200 })).2.length = 1 :=
  (c5_single_outbound _ _ _ (by decide) (by decide) (by decide)).1

/-- C6 counterexample: the path `/a//` has only one non-empty segment after
stripping leading slashes — fewer than 3 — yet the fixed-owner handler does
not answer 400: JavaScript `split` keeps empty segments, `["a", "", ""]` has
length 3, and the request proceeds to the proxy flow (one outbound request,
upstream status returned). -/
theorem c6_counterexample :
    ((splitSlash (stripLeadingSlashes "/a//")).filter (fun seg => seg != "")).length < 3 ∧
    (cdnFetch { method := "GET", pathname := "/a//" } { GITHUB_OWNER := some "own" }
        (fun _ => { status := 200 })).1.status = 200 ∧
    (cdnFetch { method := "GET", pathname := "/a//" } { GITHUB_OWNER := some "own" }
        (fun _ => { status := 200 })).2.length = 1 := by
  decide

/-- C6 amended: in the fixed-owner variant with `GITHUB_OWNER` configured,
a non-root, non-OPTIONS request answers 400 with the invalid-path body when
its path splits into fewer than 3 segments — counting empty segments — after
stripping leading slashes, and otherwise proceeds to the proxy flow and
issues the single outbound request. -/
theorem c6_path_validation (request : RequestM) (env : Env)
    (u : OutboundRequest → Upstream)
    (hm : request.method ≠ "OPTIONS")
    (h1 : request.pathname ≠ "/") (h2 : request.pathname ≠ "")
    (howner : truthy env.GITHUB_OWNER = true) :
    ((splitSlash (stripLeadingSlashes request.pathname)).length < 3 →
      (cdnFetch request env u).1 =
        { status := 400,
          body := some "Invalid path. Format: /repo/branch/path-to-file" } ∧
      (cdnFetch request env u).2 = []) ∧
    (¬ (splitSlash (stripLeadingSlashes request.pathname)).length < 3 →
      (cdnFetch request env u).2.length = 1) := by
  have hroot : ¬ (request.pathname = "/" ∨ request.pathname = "") :=
    fun hc => hc.elim h1 h2
  constructor
  · intro hlt
    constructor <;> simp [cdnFetch, hm, hroot, howner, hlt]
  · intro hge
    simp only [cdnFetch]
    rw [if_neg hm, if_neg hroot, if_neg (not_not_intro howner), if_neg hge]
    split <;> rfl

/-- Witness for C6 (amended): the concrete short path `/a` answers 400 and
issues no outbound request. -/
theorem c6_witness :
    (cdnFetch { method := "GET", pathname := "/a" } { GITHUB_OWNER := some "own" }
        (fun _ => { status := 200 })).1 =
      { status := 400,
        body := some "Invalid path. Format: /repo/branch/path-to-file" } ∧
    (cdnFetch { method := "GET", pathname := "/a" } { GITHUB_OWNER := some "own" }
        (fun _ => { status := 200 })).2 = [] :=
  (c6_path_validation _ _ _ (by decide) (by decide) (by decide) (by decide)).1
    (by decide)

/-- C7: the header rewriter sets `Cache-Control` to `public, max-age=86400`
when `CACHE_TIME` is not configured (or is configured empty — JavaScript
falsy) and to `public, max-age=<CACHE_TIME>` when it is; it sets the fixed
CORS and security values, overwriting any upstream values of the same
(case-insensitive) names; every header with any other name passes through
untouched; and for a 2xx-proxied response these are exactly the response
headers applied to the upstream header set. -/
theorem c7_header_rewrite (hs : List (String × String)) (env : Env) :
    hget (applyHeaders hs env) "Cache-Control" =
      some ("public, max-age=" ++
        (if truthy env.CACHE_TIME then env.CACHE_TIME.getD "" else "86400")) ∧
    hget (applyHeaders hs env) "Access-Control-Allow-Origin" = some "*" ∧
    hget (applyHeaders hs env) "Access-Control-Allow-Methods" = some "GET, HEAD, OPTIONS" ∧
    hget (applyHeaders hs env) "Access-Control-Max-Age" = some "86400" ∧
    hget (applyHeaders hs env) "X-Content-Type-Options" = some "nosniff" ∧
    hget (applyHeaders hs env) "X-Frame-Options" = some "DENY" ∧
    hget (applyHeaders hs env) "Referrer-Policy" = some "strict-origin-when-cross-origin" ∧
    ∀ name, lower name ≠ "cache-control" → lower name ≠ "access-control-allow-origin" →
      lower name ≠ "access-control-allow-methods" → lower name ≠ "access-control-max-age" →
      lower name ≠ "x-content-type-options" → lower name ≠ "x-frame-options" →
      lower name ≠ "referrer-policy" →
      hget (applyHeaders hs env) name = hget hs name := by
  refine ⟨?_, ?_, ?_, ?_, ?_, ?_, ?_, ?_⟩
  · rw [hget_applyHeaders, if_neg (by decide), if_neg (by decide), if_neg (by decide),
      if_neg (by decide), if_neg (by decide), if_neg (by decide), if_pos (by decide)]
    simp [cacheTimeValue, defaultCacheTime, show toString (86400 : Nat) = "86400" by decide]
  · rw [hget_applyHeaders, if_neg (by decide), if_neg (by decide), if_neg (by decide),
      if_neg (by decide), if_neg (by decide), if_pos (by decide)]
    rfl
  · rw [hget_applyHeaders, if_neg (by decide), if_neg (by decide), if_neg (by decide),
      if_neg (by decide), if_pos (by decide)]
  · rw [hget_applyHeaders, if_neg (by decide), if_neg (by decide), if_neg (by decide),
      if_pos (by decide)]
  · rw [hget_applyHeaders, if_neg (by decide), if_neg (by decide), if_pos (by decide)]
  · rw [hget_applyHeaders, if_neg (by decide), if_pos (by decide)]
  · rw [hget_applyHeaders, if_pos (by decide)]
  · intro name g1 g2 g3 g4 g5 g6 g7
    rw [hget_applyHeaders, if_neg g7, if_neg g6, if_neg g5, if_neg g4, if_neg g3,
      if_neg g2, if_neg g1]

/-- Witness for C7: a concrete upstream header set and a configured
`CACHE_TIME`. -/
theorem c7_witness :
    hget (applyHeaders [("ETag", "abc")] { CACHE_TIME := some "3600" }) "Cache-Control" =
      some "public, max-age=3600" ∧
    hget (applyHeaders [("ETag", "abc")] { CACHE_TIME := some "3600" }) "ETag" =
      some "abc" := by
  have h := c7_header_rewrite [("ETag", "abc")] { CACHE_TIME := some "3600" }
  refine ⟨?_, ?_⟩
  · rw [h.1]; decide
  · rw [h.2.2.2.2.2.2.2 "ETag" (by decide) (by decide) (by decide) (by decide)
      (by decide) (by decide) (by decide)]
    decide

/-- The preflight response of `handleOptions`: status 200, null body, the
full rewritten header set built from an empty environment (so `Cache-Control`
always uses the default 86400), and `Access-Control-Allow-Headers` echoing
the request value when truthy, else the fixed default. -/
theorem handleOptions_spec (request : RequestM) :
    (handleOptions request).status = 200 ∧
    (handleOptions request).body = none ∧
    hget (handleOptions request).headers "Cache-Control" = some "public, max-age=86400" ∧
    hget (handleOptions request).headers "Access-Control-Allow-Origin" = some "*" ∧
    hget (handleOptions request).headers "Access-Control-Allow-Methods" =
      some "GET, HEAD, OPTIONS" ∧
    hget (handleOptions request).headers "Access-Control-Max-Age" = some "86400" ∧
    hget (handleOptions request).headers "X-Content-Type-Options" = some "nosniff" ∧
    hget (handleOptions request).headers "X-Frame-Options" = some "DENY" ∧
    hget (handleOptions request).headers "Referrer-Policy" =
      some "strict-origin-when-cross-origin" ∧
    hget (handleOptions request).headers "Access-Control-Allow-Headers" =
      some (if truthy (hget request.headers "Access-Control-Request-Headers")
        then (hget request.headers "Access-Control-Request-Headers").getD ""
        else "X-GitHub-Token, Content-Type") := by
  refine ⟨rfl, rfl, ?_, ?_, ?_, ?_, ?_, ?_, ?_, ?_⟩
  all_goals simp only [handleOptions]
  · rw [hget_hset, if_neg (by decide), hget_applyHeaders]; decide
  · rw [hget_hset, if_neg (by decide), hget_applyHeaders]; decide
  · rw [hget_hset, if_neg (by decide), hget_applyHeaders]; decide
  · rw [hget_hset, if_neg (by decide), hget_applyHeaders]; decide
  · rw [hget_hset, if_neg (by decide), hget_applyHeaders]; decide
  · rw [hget_hset, if_neg (by decide), hget_applyHeaders]; decide
  · rw [hget_hset, if_neg (by decide), hget_applyHeaders]; decide
  · rw [hget_hset, if_pos (by decide)]

/-- C8 counterexample: with `CACHE_TIME` configured to 3600, the preflight
response still carries `Cache-Control: public, max-age=86400` — the source
passes an empty environment object to `applyHeaders` — not the configured
cache seconds claimed by the spec. -/
theorem c8_counterexample :
    hget ((cdnFetch { method := "OPTIONS", pathname := "/r/b/f" }
        { CACHE_TIME := some "3600" } (fun _ => { status := 200 })).1.headers)
      "Cache-Control" = some "public, max-age=86400" ∧
    hget ((cdnFetch { method := "OPTIONS", pathname := "/r/b/f" }
        { CACHE_TIME := some "3600" } (fun _ => { status := 200 })).1.headers)
      "Cache-Control" ≠ some "public, max-age=3600" := by
  decide

/-- C8 amended: every OPTIONS request, regardless of path, yields status 200
with a null body, no outbound request, the full rewritten header set — with
`Cache-Control: public, max-age=86400` always, the configured cache seconds
being ignored for preflight — and `Access-Control-Allow-Headers` echoing the
request's `Access-Control-Request-Headers` when present and non-empty, else
the fixed default. -/
theorem c8_preflight (request : RequestM) (env : Env)
    (u : OutboundRequest → Upstream) (hm : request.method = "OPTIONS") :
    (cdnFetch request env u).1.status = 200 ∧
    (cdnFetch request env u).1.body = none ∧
    hget (cdnFetch request env u).1.headers "Cache-Control" =
      some "public, max-age=86400" ∧
    hget (cdnFetch request env u).1.headers "Access-Control-Allow-Origin" = some "*" ∧
    hget (cdnFetch request env u).1.headers "Access-Control-Allow-Methods" =
      some "GET, HEAD, OPTIONS" ∧
    hget (cdnFetch request env u).1.headers "Access-Control-Max-Age" = some "86400" ∧
    hget (cdnFetch request env u).1.headers "X-Content-Type-Options" = some "nosniff" ∧
    hget (cdnFetch request env u).1.headers "X-Frame-Options" = some "DENY" ∧
    hget (cdnFetch request env u).1.headers "Referrer-Policy" =
      some "strict-origin-when-cross-origin" ∧
    hget (cdnFetch request env u).1.headers "Access-Control-Allow-Headers" =
      some (if truthy (hget request.headers "Access-Control-Request-Headers")
        then (hget request.headers "Access-Control-Request-Headers").getD ""
        else "X-GitHub-Token, Content-Type") ∧
    (cdnFetch request env u).2 = [] := by
  have hc : cdnFetch request env u = (handleOptions request, []) := by
    simp [cdnFetch, hm]
  rw [hc]
  have h := handleOptions_spec request
  exact ⟨h.1, h.2.1, h.2.2.1, h.2.2.2.1, h.2.2.2.2.1, h.2.2.2.2.2.1,
    h.2.2.2.2.2.2.1, h.2.2.2.2.2.2.2.1, h.2.2.2.2.2.2.2.2.1,
    h.2.2.2.2.2.2.2.2.2, rfl⟩

/-- Witness for C8 (amended): a concrete OPTIONS request with an
`Access-Control-Request-Headers` value, its echo in the response. -/
theorem c8_witness :
    (cdnFetch
        { method := "OPTIONS", pathname := "/any",
          headers := [("Access-Control-Request-Headers", "X-Custom")] }
        { CACHE_TIME := some "3600" } (fun _ => { status := 200 })).1.status = 200 ∧
    hget ((cdnFetch
        { method := "OPTIONS", pathname := "/any",
          headers := [("Access-Control-Request-Headers", "X-Custom")] }
        { CACHE_TIME := some "3600" } (fun _ => { status := 200 })).1.headers)
      "Access-Control-Allow-Headers" = some "X-Custom" := by
  have h := c8_preflight
    { method := "OPTIONS", pathname := "/any",
      headers := [("Access-Control-Request-Headers", "X-Custom")] }
    { CACHE_TIME := some "3600" } (fun _ => { status := 200 }) (by decide)
  refine ⟨h.1, ?_⟩
  rw [h.2.2.2.2.2.2.2.2.2.1]
  decide

/-- C9 counterexample: the landing page served for the root path is a 200
(success) response, yet it carries none of the three security headers,
contradicting the claim that every success response does. -/
theorem c9_counterexample :
    (cdnFetch { method := "GET", pathname := "/" } {}
      (fun _ => { status := 200 })).1.status = 200 ∧
    hget ((cdnFetch { method := "GET", pathname := "/" } {}
      (fun _ => { status := 200 })).1.headers) "X-Content-Type-Options" = none ∧
    hget ((cdnFetch { method := "GET", pathname := "/" } {}
      (fun _ => { status := 200 })).1.headers) "X-Frame-Options" = none ∧
    hget ((cdnFetch { method := "GET", pathname := "/" } {}
      (fun _ => { status := 200 })).1.headers) "Referrer-Policy" = none := by
  refine ⟨rfl, ?_, ?_, ?_⟩ <;> decide

/-- C9 amended: every preflight response and every 2xx-proxied response
carries the three security headers (`X-Content-Type-Options: nosniff`,
`X-Frame-Options: DENY`, `Referrer-Policy: strict-origin-when-cross-origin`),
but the landing page served for the root path carries none of them. -/
theorem c9_security_headers (request : RequestM) (env : Env)
    (u : OutboundRequest → Upstream) :
    (request.method = "OPTIONS" →
      hget (cdnFetch request env u).1.headers "X-Content-Type-Options" = some "nosniff" ∧
      hget (cdnFetch request env u).1.headers "X-Frame-Options" = some "DENY" ∧
      hget (cdnFetch request env u).1.headers "Referrer-Policy" =
        some "strict-origin-when-cross-origin") ∧
    (request.method ≠ "OPTIONS" → request.pathname ≠ "/" → request.pathname ≠ "" →
      truthy env.GITHUB_OWNER = true →
      ¬ (splitSlash (stripLeadingSlashes request.pathname)).length < 3 →
      (∀ ob, respOk (u ob).status = true) →
      hget (cdnFetch request env u).1.headers "X-Content-Type-Options" = some "nosniff" ∧
      hget (cdnFetch request env u).1.headers "X-Frame-Options" = some "DENY" ∧
      hget (cdnFetch request env u).1.headers "Referrer-Policy" =
        some "strict-origin-when-cross-origin") ∧
    (request.method ≠ "OPTIONS" → request.pathname = "/" →
      hget (cdnFetch request env u).1.headers "X-Content-Type-Options" = none ∧
      hget (cdnFetch request env u).1.headers "X-Frame-Options" = none ∧
      hget (cdnFetch request env u).1.headers "Referrer-Policy" = none) := by
  refine ⟨fun hm => ?_, fun hm h1 h2 howner hparts hok => ?_, fun hm hroot => ?_⟩
  · have hc : cdnFetch request env u = (handleOptions request, []) := by
      simp [cdnFetch, hm]
    rw [hc]
    have h := handleOptions_spec request
    exact ⟨h.2.2.2.2.2.2.1, h.2.2.2.2.2.2.2.1, h.2.2.2.2.2.2.2.2.1⟩
  · have hroot : ¬ (request.pathname = "/" ∨ request.pathname = "") :=
      fun hc => hc.elim h1 h2
    simp only [cdnFetch]
    rw [if_neg hm, if_neg hroot, if_neg (not_not_intro howner), if_neg hparts,
      if_neg (not_not_intro (hok _))]
    refine ⟨?_, ?_, ?_⟩
    · rw [hget_applyHeaders, if_neg (by decide), if_neg (by decide), if_pos (by decide)]
    · rw [hget_applyHeaders, if_neg (by decide), if_pos (by decide)]
    · rw [hget_applyHeaders, if_pos (by decide)]
  · simp only [cdnFetch]
    rw [if_neg hm, if_pos (Or.inl hroot)]
    refine ⟨?_, ?_, ?_⟩ <;> (simp only [generateLandingPage]; decide)

/-- Witness for C9 (amended): the three security headers on a concrete
preflight response. -/
theorem c9_witness :
    hget ((cdnFetch { method := "OPTIONS", pathname := "/x" } {}
      (fun _ => { status := 200 })).1.headers) "X-Content-Type-Options" =
        some "nosniff" ∧
    hget ((cdnFetch { method := "OPTIONS", pathname := "/x" } {}
      (fun _ => { status := 200 })).1.headers) "X-Frame-Options" = some "DENY" ∧
    hget ((cdnFetch { method := "OPTIONS", pathname := "/x" } {}
      (fun _ => { status := 200 })).1.headers) "Referrer-Policy" =
        some "strict-origin-when-cross-origin" :=
  (c9_security_headers { method := "OPTIONS", pathname := "/x" } {}
    (fun _ => { status := 200 })).1 rfl

/-- C10: with the `X-GitHub-Token` header absent or empty,
`ALLOW_QUERY_PARAM_TOKEN` exactly the string true, and `?token=` present
with an empty value, token resolution returns the empty string — for every
value of the configured `GITHUB_TOKEN`, which is never consulted — and no
outbound request carries an `Authorization` header (the empty token is falsy
at the `fetch` call). -/
theorem c10_empty_query_token (request : RequestM) (env : Env)
    (hh : truthy (hget request.headers "X-GitHub-Token") = false)
    (hq : env.ALLOW_QUERY_PARAM_TOKEN = some "true")
    (ht : request.tokenParam = some "") :
    getToken request env = some "" ∧
    (∀ g, getToken request { env with GITHUB_TOKEN := g } = some "") ∧
    (∀ u, ∀ ob ∈ (cdnFetch request env u).2,
      hget ob.headers "Authorization" = none) := by
  have htok0 : getToken request env = some "" := by
    simp [getToken, hh, hq, ht]
  refine ⟨htok0, fun g => ?_, fun u ob hob => ?_⟩
  · simp [getToken, hh, hq, ht]
  · rw [(cdnFetch_outbound_mem request env u ob hob).2, htok0, hget_authHeaders]
    simp [truthy]

/-- Witness for C10: a concrete request with an empty `?token=` and a
configured (and ignored) `GITHUB_TOKEN`. -/
theorem c10_witness :
    getToken { method := "GET", pathname := "/r/b/f", tokenParam := some "" }
      { GITHUB_OWNER := some "own", GITHUB_TOKEN := some "secret",
        ALLOW_QUERY_PARAM_TOKEN := some "true" } = some "" ∧
    hget ((cdnFetch { method := "GET", pathname := "/r/b/f", tokenParam := some "" }
        { GITHUB_OWNER := some "own", GITHUB_TOKEN := some "secret",
          ALLOW_QUERY_PARAM_TOKEN := some "true" } (fun _ => { status := 200 })).2.headD
      { method := "", url := "", headers := [] }).headers "Authorization" = none := by
  have h := c10_empty_query_token
    { method := "GET", pathname := "/r/b/f", tokenParam := some "" }
    { GITHUB_OWNER := some "own", GITHUB_TOKEN := some "secret",
      ALLOW_QUERY_PARAM_TOKEN := some "true" }
    (by decide) (by decide) (by decide)
  exact ⟨h.1, h.2.2 (fun _ => { status := 200 })
    ((cdnFetch { method := "GET", pathname := "/r/b/f", tokenParam := some "" }
        { GITHUB_OWNER := some "own", GITHUB_TOKEN := some "secret",
          ALLOW_QUERY_PARAM_TOKEN := some "true" } (fun _ => { status := 200 })).2.headD
      { method := "", url := "", headers := [] }) (by decide)⟩

end GithubCdn
